import Mathlib

/-!
Shallow embedding of src/app/src/main.c (Zephyr multi-LED blinker).

The program drives NUM_LEDS = 4 GPIO outputs.  We model the hardware as an
oracle `Hw` giving, for each LED index, whether its GPIO device is ready
(`gpio_is_ready_dt`) and the error code returned by
`gpio_pin_configure_dt` (0 on success).  Each routine of the C file is
embedded as a function producing the list of observable events it performs
(readiness checks, configure calls, pin writes, toggles, sleeps, log and
printk output), in program order.  Pin levels are a function `Nat → Bool`
(false = inactive / logic level 0) and `applyEvents` folds a trace over a
level state, mirroring the effect of `gpio_pin_set_dt` and
`gpio_pin_toggle_dt`.
-/

namespace Blinker

/-- NUM_LEDS in main.c: sizeof(leds)/sizeof(leds[0]) = 4 (led0..led3). -/
def NUM_LEDS : Nat := 4

/-- STEP_DELAY_MS in main.c. -/
def STEP_DELAY_MS : Nat := 150

/-- LAP_DELAY_MS in main.c. -/
def LAP_DELAY_MS : Nat := 400

/-- STARTUP_FLASHES in main.c. -/
def STARTUP_FLASHES : Nat := 2

/-- Zephyr errno ENODEV (no such device), value 19. -/
def ENODEV : Int := 19

/-- Hardware oracle: readiness of each LED's GPIO device and the result of
configuring it (`0` means success, any other value is the platform error
code returned by `gpio_pin_configure_dt`). -/
structure Hw where
  ready : Nat → Bool
  cfgErr : Nat → Int

/-- Observable events of the program, in program order. -/
inductive Event where
  /-- `gpio_is_ready_dt(&leds[i])` was called. -/
  | isReadyCheck (i : Nat)
  /-- `gpio_pin_configure_dt(&leds[i], ...)` was called with the given
  initial logic level (false = GPIO_OUTPUT_INACTIVE). -/
  | configure (i : Nat) (level : Bool)
  /-- `gpio_pin_set_dt(&leds[i], level)`. -/
  | set (i : Nat) (level : Bool)
  /-- `gpio_pin_toggle_dt(&leds[i])`. -/
  | toggle (i : Nat)
  /-- `k_msleep(ms)`. -/
  | sleep (ms : Nat)
  /-- `LOG_ERR("LED%u GPIO device not ready", i)`. -/
  | logErrNotReady (i : Nat)
  /-- `LOG_ERR("LED%u configure failed: %d", i, err)`. -/
  | logErrConfigure (i : Nat) (err : Int)
  /-- `LOG_INF("LEDs ready: %u", n)`. -/
  | logInf (n : Nat)
  /-- `printk("LED init failed: %d\n", err)`. -/
  | printk (err : Int)
  deriving DecidableEq, Repr

/-- The LED index an event directly acts on through the GPIO driver
(readiness check, configure, set or toggle); `none` for sleeps and
logging. -/
def touchIdx : Event → Option Nat
  | Event.isReadyCheck i => some i
  | Event.configure i _ => some i
  | Event.set i _ => some i
  | Event.toggle i => some i
  | _ => none

/-- Effect of one event on the pin-level state (false = inactive).
`configure i false` models GPIO_OUTPUT_INACTIVE establishing the inactive
initial level. -/
def applyEvent (s : Nat → Bool) : Event → Nat → Bool
  | Event.configure i l => fun j => if j = i then l else s j
  | Event.set i l => fun j => if j = i then l else s j
  | Event.toggle i => fun j => if j = i then !(s j) else s j
  | _ => s

/-- Effect of a trace on the pin-level state, first event first. -/
def applyEvents (tr : List Event) (s : Nat → Bool) : Nat → Bool :=
  tr.foldl applyEvent s

/-- Loop body sequence of `init_leds` over a list of LED indices: check
readiness (return -ENODEV if not ready), configure as output with the
inactive initial level (return the error code if nonzero), else continue.
Returns the C function's return value paired with the event trace. -/
def init_leds_go (hw : Hw) : List Nat → Int × List Event
  | [] => (0, [])
  | i :: rest =>
    if hw.ready i = false then
      (-ENODEV, [Event.isReadyCheck i, Event.logErrNotReady i])
    else
      let err := hw.cfgErr i
      if err ≠ 0 then
        (err, [Event.isReadyCheck i, Event.configure i false,
               Event.logErrConfigure i err])
      else
        let r := init_leds_go hw rest
        (r.1, Event.isReadyCheck i :: Event.configure i false :: r.2)

/-- `init_leds` of main.c: iterate the loop body over indices 0..NUM_LEDS-1. -/
def init_leds (hw : Hw) : Int × List Event :=
  init_leds_go hw (List.range NUM_LEDS)

/-- One iteration of the `startup_blink` loop body: set every LED to 1,
`k_msleep(000)`, set every LED to 0, `k_msleep(100)`. -/
def startup_blink_cycle : List Event :=
  ((List.range NUM_LEDS).map (fun i => Event.set i true))
    ++ [Event.sleep 0]
    ++ ((List.range NUM_LEDS).map (fun i => Event.set i false))
    ++ [Event.sleep 100]

/-- `startup_blink` of main.c: STARTUP_FLASHES iterations of the cycle. -/
def startup_blink : List Event :=
  (List.replicate STARTUP_FLASHES startup_blink_cycle).flatten

/-- One toggle/hold/toggle step of `do_chase_lap` at LED index i. -/
def togglePair (i : Nat) : List Event :=
  [Event.toggle i, Event.sleep STEP_DELAY_MS, Event.toggle i]

/-- `do_chase_lap` of main.c: forward loop i = 0..NUM_LEDS-1, backward loop
`for (i = NUM_LEDS; i-- > 0;)` i.e. i = NUM_LEDS-1 down to 0, then
`k_msleep(LAP_DELAY_MS)`. -/
def do_chase_lap : List Event :=
  ((List.range NUM_LEDS).map togglePair).flatten
    ++ (((List.range NUM_LEDS).reverse).map togglePair).flatten
    ++ [Event.sleep LAP_DELAY_MS]

/-- The events of n consecutive `do_chase_lap` calls. -/
def chase_laps (n : Nat) : List Event :=
  (List.replicate n do_chase_lap).flatten

/-- `main` of main.c, with the unending `for (;;) do_chase_lap();` loop
observed up to `laps` iterations.  Result `some e` means main returned e
(init failure, after the printk fallback); `none` means main is still in
the infinite chase loop and never returns. -/
def main (hw : Hw) (laps : Nat) : Option Int × List Event :=
  let r := init_leds hw
  if r.1 ≠ 0 then
    (some r.1, r.2 ++ [Event.printk r.1])
  else
    (none, r.2 ++ [Event.logInf NUM_LEDS] ++ startup_blink ++ chase_laps laps)

end Blinker

namespace Blinker

/-- The durations, in order, of the `k_msleep` calls in a trace. -/
def sleepDurations (tr : List Event) : List Nat :=
  tr.filterMap (fun e => match e with | Event.sleep d => some d | _ => none)

/-- Whether an event is a `gpio_pin_toggle_dt` call. -/
def isToggle : Event → Bool
  | Event.toggle _ => true
  | _ => false

theorem applyEvents_append (a b : List Event) (s : Nat → Bool) :
    applyEvents (a ++ b) s = applyEvents b (applyEvents a s) :=
  List.foldl_append applyEvent s a b

theorem applyEvents_togglePair (i : Nat) (s : Nat → Bool) :
    applyEvents (togglePair i) s = s := by
  funext j
  by_cases h : j = i <;>
    simp [togglePair, applyEvents, applyEvent, h]

theorem applyEvents_togglePairs (l : List Nat) (s : Nat → Bool) :
    applyEvents ((l.map togglePair).flatten) s = s := by
  induction l generalizing s with
  | nil => rfl
  | cons i t ih =>
      rw [List.map_cons, List.flatten_cons, applyEvents_append,
        applyEvents_togglePair, ih]

theorem applyEvents_do_chase_lap (s : Nat → Bool) :
    applyEvents do_chase_lap s = s := by
  rw [do_chase_lap, applyEvents_append, applyEvents_append,
    applyEvents_togglePairs, applyEvents_togglePairs]
  rfl

theorem applyEvents_chase_laps (n : Nat) (s : Nat → Bool) :
    applyEvents (chase_laps n) s = s := by
  induction n with
  | zero => rfl
  | succ m ih =>
      rw [chase_laps, List.replicate_succ, List.flatten_cons,
        applyEvents_append, applyEvents_do_chase_lap]
      exact ih

/-- C4: `do_chase_lap` is state-neutral: every toggle/hold/toggle pair
restores the pre-pair level state, a single lap restores the pre-lap level
state, and any number of consecutive laps leaves every LED level equal to
its level before the first lap, at the end of each lap. -/
theorem c4_chase_lap_state_neutral :
    (∀ i s, applyEvents (togglePair i) s = s) ∧
    (∀ s, applyEvents do_chase_lap s = s) ∧
    (∀ n s j, applyEvents (chase_laps n) s j = s j) :=
  ⟨applyEvents_togglePair, applyEvents_do_chase_lap,
   fun n s j => by rw [applyEvents_chase_laps]⟩

/-- C5: one chase lap performs the toggle pairs at indices 0,1,2,3 (forward
phase, in order) then 3,2,1,0 (backward phase, strictly reverse order, no
skipped endpoints), exactly 8 toggle pairs (16 toggle calls) in total, and
ends with the 400 ms lap hold. -/
theorem c5_chase_lap_order :
    do_chase_lap =
      (([0, 1, 2, 3].map togglePair).flatten
        ++ ([3, 2, 1, 0].map togglePair).flatten
        ++ [Event.sleep 400]) ∧
    do_chase_lap.countP isToggle = 2 * 8 ∧
    do_chase_lap.getLast? = some (Event.sleep LAP_DELAY_MS) := by
  refine ⟨by decide, by decide, by decide⟩

/-- C7: in each cycle of `startup_blink`, the hold between the all-active
writes and the all-inactive writes is a zero-millisecond sleep: the sleep
durations of the whole trace are 0,100,0,100, and the event after the four
activation writes of each cycle (positions 4 and 14) is `sleep 0`. -/
theorem c7_startup_blink_on_hold_zero :
    sleepDurations startup_blink = [0, 100, 0, 100] ∧
    startup_blink.get? 4 = some (Event.sleep 0) ∧
    startup_blink.get? 14 = some (Event.sleep 0) := by
  refine ⟨by decide, by decide, by decide⟩

end Blinker

namespace Blinker

theorem range_num_leds : List.range NUM_LEDS = [0, 1, 2, 3] := by decide

/-- Trace and result of `init_leds` when every LED is ready and every
configure call succeeds. -/
theorem init_leds_all_ok (hw : Hw)
    (hready : ∀ i, i < NUM_LEDS → hw.ready i = true)
    (hcfg : ∀ i, i < NUM_LEDS → hw.cfgErr i = 0) :
    init_leds hw =
      (0, [Event.isReadyCheck 0, Event.configure 0 false,
           Event.isReadyCheck 1, Event.configure 1 false,
           Event.isReadyCheck 2, Event.configure 2 false,
           Event.isReadyCheck 3, Event.configure 3 false]) := by
  have h0 := hready 0 (by decide)
  have h1 := hready 1 (by decide)
  have h2 := hready 2 (by decide)
  have h3 := hready 3 (by decide)
  have c0 := hcfg 0 (by decide)
  have c1 := hcfg 1 (by decide)
  have c2 := hcfg 2 (by decide)
  have c3 := hcfg 3 (by decide)
  simp [init_leds, range_num_leds, init_leds_go, h0, h1, h2, h3, c0, c1, c2, c3]

/-- Behavior of `init_leds` when LED k is the first unready one: the
function returns -ENODEV, logs k, touches no index above k through the
GPIO driver, and has already configured every index below k. -/
theorem init_leds_notReady (hw : Hw) (k : Nat) (hk : k < NUM_LEDS)
    (hprev : ∀ j, j < k → hw.ready j = true ∧ hw.cfgErr j = 0)
    (hnr : hw.ready k = false) :
    (init_leds hw).1 = -ENODEV ∧
    Event.logErrNotReady k ∈ (init_leds hw).2 ∧
    (∀ e, e ∈ (init_leds hw).2 → ∀ j, touchIdx e = some j → j ≤ k) ∧
    (∀ j, j < k → Event.configure j false ∈ (init_leds hw).2) := by
  have hk4 : k < 4 := hk
  interval_cases k
  · have tr : init_leds hw =
        (-ENODEV, [Event.isReadyCheck 0, Event.logErrNotReady 0]) := by
      simp [init_leds, range_num_leds, init_leds_go, hnr]
    rw [tr]
    refine ⟨rfl, by decide, ?_, ?_⟩
    · intro e he j hj
      fin_cases he <;> simp [touchIdx] at hj <;> omega
    · intro j hj
      exact absurd hj (by omega)
  · have h0 := hprev 0 (by decide)
    have tr : init_leds hw =
        (-ENODEV, [Event.isReadyCheck 0, Event.configure 0 false,
                   Event.isReadyCheck 1, Event.logErrNotReady 1]) := by
      simp [init_leds, range_num_leds, init_leds_go, h0.1, h0.2, hnr]
    rw [tr]
    refine ⟨rfl, by decide, ?_, ?_⟩
    · intro e he j hj
      fin_cases he <;> simp [touchIdx] at hj <;> omega
    · intro j hj
      interval_cases j <;> decide
  · have h0 := hprev 0 (by decide)
    have h1 := hprev 1 (by decide)
    have tr : init_leds hw =
        (-ENODEV, [Event.isReadyCheck 0, Event.configure 0 false,
                   Event.isReadyCheck 1, Event.configure 1 false,
                   Event.isReadyCheck 2, Event.logErrNotReady 2]) := by
      simp [init_leds, range_num_leds, init_leds_go,
        h0.1, h0.2, h1.1, h1.2, hnr]
    rw [tr]
    refine ⟨rfl, by decide, ?_, ?_⟩
    · intro e he j hj
      fin_cases he <;> simp [touchIdx] at hj <;> omega
    · intro j hj
      interval_cases j <;> decide
  · have h0 := hprev 0 (by decide)
    have h1 := hprev 1 (by decide)
    have h2 := hprev 2 (by decide)
    have tr : init_leds hw =
        (-ENODEV, [Event.isReadyCheck 0, Event.configure 0 false,
                   Event.isReadyCheck 1, Event.configure 1 false,
                   Event.isReadyCheck 2, Event.configure 2 false,
                   Event.isReadyCheck 3, Event.logErrNotReady 3]) := by
      simp [init_leds, range_num_leds, init_leds_go,
        h0.1, h0.2, h1.1, h1.2, h2.1, h2.2, hnr]
    rw [tr]
    refine ⟨rfl, by decide, ?_, ?_⟩
    · intro e he j hj
      fin_cases he <;> simp [touchIdx] at hj <;> omega
    · intro j hj
      interval_cases j <;> decide

end Blinker

namespace Blinker

/-- Behavior of `init_leds` when all LEDs below k are ready and configure
fine, LED k is ready but its configure call fails: the function returns the
platform error code, logs index and code, and configures no index above
k. -/
theorem init_leds_cfgFail (hw : Hw) (k : Nat) (hk : k < NUM_LEDS)
    (hprev : ∀ j, j < k → hw.ready j = true ∧ hw.cfgErr j = 0)
    (hrk : hw.ready k = true) (hek : hw.cfgErr k ≠ 0) :
    (init_leds hw).1 = hw.cfgErr k ∧
    Event.logErrConfigure k (hw.cfgErr k) ∈ (init_leds hw).2 ∧
    (∀ j l, Event.configure j l ∈ (init_leds hw).2 → j ≤ k) := by
  have hk4 : k < 4 := hk
  interval_cases k
  · have tr : init_leds hw =
        (hw.cfgErr 0, [Event.isReadyCheck 0, Event.configure 0 false,
                       Event.logErrConfigure 0 (hw.cfgErr 0)]) := by
      simp [init_leds, range_num_leds, init_leds_go, hrk, hek]
    rw [tr]
    refine ⟨rfl, by simp, ?_⟩
    intro j l hm
    simp at hm
    omega
  · have h0 := hprev 0 (by decide)
    have tr : init_leds hw =
        (hw.cfgErr 1, [Event.isReadyCheck 0, Event.configure 0 false,
                       Event.isReadyCheck 1, Event.configure 1 false,
                       Event.logErrConfigure 1 (hw.cfgErr 1)]) := by
      simp [init_leds, range_num_leds, init_leds_go, h0.1, h0.2, hrk, hek]
    rw [tr]
    refine ⟨rfl, by simp, ?_⟩
    intro j l hm
    simp at hm
    rcases hm with ⟨h, -⟩ | ⟨h, -⟩ <;> omega
  · have h0 := hprev 0 (by decide)
    have h1 := hprev 1 (by decide)
    have tr : init_leds hw =
        (hw.cfgErr 2, [Event.isReadyCheck 0, Event.configure 0 false,
                       Event.isReadyCheck 1, Event.configure 1 false,
                       Event.isReadyCheck 2, Event.configure 2 false,
                       Event.logErrConfigure 2 (hw.cfgErr 2)]) := by
      simp [init_leds, range_num_leds, init_leds_go,
        h0.1, h0.2, h1.1, h1.2, hrk, hek]
    rw [tr]
    refine ⟨rfl, by simp, ?_⟩
    intro j l hm
    simp at hm
    rcases hm with ⟨h, -⟩ | ⟨h, -⟩ | ⟨h, -⟩ <;> omega
  · have h0 := hprev 0 (by decide)
    have h1 := hprev 1 (by decide)
    have h2 := hprev 2 (by decide)
    have tr : init_leds hw =
        (hw.cfgErr 3, [Event.isReadyCheck 0, Event.configure 0 false,
                       Event.isReadyCheck 1, Event.configure 1 false,
                       Event.isReadyCheck 2, Event.configure 2 false,
                       Event.isReadyCheck 3, Event.configure 3 false,
                       Event.logErrConfigure 3 (hw.cfgErr 3)]) := by
      simp [init_leds, range_num_leds, init_leds_go,
        h0.1, h0.2, h1.1, h1.2, h2.1, h2.2, hrk, hek]
    rw [tr]
    refine ⟨rfl, by simp, ?_⟩
    intro j l hm
    simp at hm
    rcases hm with ⟨h, -⟩ | ⟨h, -⟩ | ⟨h, -⟩ | ⟨h, -⟩ <;> omega

end Blinker

namespace Blinker

/-- Hardware on which every LED is ready and configures successfully. -/
def hwGood : Hw := ⟨fun _ => true, fun _ => 0⟩

/-- Hardware on which LEDs 0 and 1 are ready but LED 2 is not. -/
def hwNR : Hw := ⟨fun i => decide (i < 2), fun _ => 0⟩

/-- Hardware on which no LED is ready. -/
def hwNR0 : Hw := ⟨fun _ => false, fun _ => 0⟩

/-- Hardware on which every LED is ready but configuring LED 1 fails with
platform code -22 (EINVAL). -/
def hwCF : Hw := ⟨fun _ => true, fun i => if i = 1 then -22 else 0⟩

/-- C1: if every one of the NUM_LEDS LEDs reports ready and its configure
call succeeds, `init_leds` returns success (0) and during the call each
LED's output is configured exactly once, with the inactive initial
level. -/
theorem c1_init_success (hw : Hw)
    (hready : ∀ i, i < NUM_LEDS → hw.ready i = true)
    (hcfg : ∀ i, i < NUM_LEDS → hw.cfgErr i = 0) :
    (init_leds hw).1 = 0 ∧
    ∀ i, i < NUM_LEDS →
      (init_leds hw).2.count (Event.configure i false) = 1 ∧
      (init_leds hw).2.countP
        (fun e => match e with
          | Event.configure m _ => m == i
          | _ => false) = 1 := by
  rw [init_leds_all_ok hw hready hcfg]
  refine ⟨rfl, ?_⟩
  intro i hi
  have hi4 : i < 4 := hi
  interval_cases i <;> exact ⟨by decide, by decide⟩

/-- Witness for C1 on concrete all-good hardware. -/
theorem c1_init_success_witness :
    hwGood.ready 0 = true ∧
    (init_leds hwGood).1 = 0 ∧
    (init_leds hwGood).2.count (Event.configure 0 false) = 1 :=
  ⟨rfl, (c1_init_success hwGood (fun _ _ => rfl) (fun _ _ => rfl)).1,
    ((c1_init_success hwGood (fun _ _ => rfl) (fun _ _ => rfl)).2 0
      (by decide)).1⟩

/-- C2: if LED k is the first unready LED, `init_leds` returns the
DeviceNotReady error value -ENODEV and logs the offending index k, no LED
with index above k is touched through the GPIO driver (neither
readiness-checked nor configured nor written), and every LED below k has
already been configured with the inactive level. -/
theorem c2_init_notReady_fail_fast (hw : Hw) (k : Nat) (hk : k < NUM_LEDS)
    (hprev : ∀ j, j < k → hw.ready j = true ∧ hw.cfgErr j = 0)
    (hnr : hw.ready k = false) :
    (init_leds hw).1 = -ENODEV ∧
    Event.logErrNotReady k ∈ (init_leds hw).2 ∧
    (∀ e, e ∈ (init_leds hw).2 → ∀ j, touchIdx e = some j → j ≤ k) ∧
    (∀ j, j < k → Event.configure j false ∈ (init_leds hw).2) :=
  init_leds_notReady hw k hk hprev hnr

/-- Witness for C2 on concrete hardware whose first unready LED is 2. -/
theorem c2_init_notReady_fail_fast_witness :
    hwNR.ready 2 = false ∧
    (init_leds hwNR).1 = -ENODEV ∧
    Event.logErrNotReady 2 ∈ (init_leds hwNR).2 :=
  ⟨rfl,
    (c2_init_notReady_fail_fast hwNR 2 (by decide)
      (fun j hj => by interval_cases j <;> exact ⟨rfl, rfl⟩) rfl).1,
    (c2_init_notReady_fail_fast hwNR 2 (by decide)
      (fun j hj => by interval_cases j <;> exact ⟨rfl, rfl⟩) rfl).2.1⟩

/-- C3: if every LED below k is ready and configures fine, LED k is ready
but its configure call fails with platform code e, then `init_leds`
returns e, logs both the index k and the code e, and configures no LED
with index above k. -/
theorem c3_init_configure_fail (hw : Hw) (k : Nat) (e : Int)
    (hk : k < NUM_LEDS)
    (hprev : ∀ j, j < k → hw.ready j = true ∧ hw.cfgErr j = 0)
    (hrk : hw.ready k = true) (he : hw.cfgErr k = e) (hne : e ≠ 0) :
    (init_leds hw).1 = e ∧
    Event.logErrConfigure k e ∈ (init_leds hw).2 ∧
    (∀ j l, Event.configure j l ∈ (init_leds hw).2 → j ≤ k) := by
  subst he
  exact init_leds_cfgFail hw k hk hprev hrk hne

/-- Witness for C3 on concrete hardware where configuring LED 1 fails with
code -22. -/
theorem c3_init_configure_fail_witness :
    hwCF.cfgErr 1 = -22 ∧
    (init_leds hwCF).1 = -22 ∧
    Event.logErrConfigure 1 (-22) ∈ (init_leds hwCF).2 :=
  ⟨rfl,
    (c3_init_configure_fail hwCF 1 (-22) (by decide)
      (fun j hj => by interval_cases j <;> exact ⟨rfl, rfl⟩)
      rfl rfl (by decide)).1,
    (c3_init_configure_fail hwCF 1 (-22) (by decide)
      (fun j hj => by interval_cases j <;> exact ⟨rfl, rfl⟩)
      rfl rfl (by decide)).2.1⟩

/-- C10: the not-ready return value of `init_leds` is the same constant
-ENODEV whatever the first failing index is, so two runs failing at
different indices return equal values; the failing index appears only in
the log event. -/
theorem c10_notReady_result_constant (hw hw2 : Hw) (j k : Nat)
    (hj : j < NUM_LEDS) (hk : k < NUM_LEDS)
    (hprevj : ∀ m, m < j → hw.ready m = true ∧ hw.cfgErr m = 0)
    (hnrj : hw.ready j = false)
    (hprevk : ∀ m, m < k → hw2.ready m = true ∧ hw2.cfgErr m = 0)
    (hnrk : hw2.ready k = false) :
    (init_leds hw).1 = -ENODEV ∧ (init_leds hw2).1 = (init_leds hw).1 ∧
    Event.logErrNotReady j ∈ (init_leds hw).2 := by
  obtain ⟨a1, a2, -, -⟩ := init_leds_notReady hw j hj hprevj hnrj
  obtain ⟨b1, -, -, -⟩ := init_leds_notReady hw2 k hk hprevk hnrk
  exact ⟨a1, by rw [a1, b1], a2⟩

/-- Witness for C10: a run failing at index 2 and a run failing at index 0
return the same value. -/
theorem c10_notReady_result_constant_witness :
    hwNR.ready 2 = false ∧ hwNR0.ready 0 = false ∧
    (init_leds hwNR).1 = -ENODEV ∧
    (init_leds hwNR0).1 = (init_leds hwNR).1 :=
  ⟨rfl, rfl,
    (c10_notReady_result_constant hwNR hwNR0 2 0 (by decide) (by decide)
      (fun m hm => by interval_cases m <;> exact ⟨rfl, rfl⟩) rfl
      (fun m hm => by exact absurd hm (by omega)) rfl).1,
    (c10_notReady_result_constant hwNR hwNR0 2 0 (by decide) (by decide)
      (fun m hm => by interval_cases m <;> exact ⟨rfl, rfl⟩) rfl
      (fun m hm => by exact absurd hm (by omega)) rfl).2.1⟩

end Blinker

namespace Blinker

theorem startup_blink_eq :
    startup_blink =
      [Event.set 0 true, Event.set 1 true, Event.set 2 true, Event.set 3 true,
       Event.sleep 0,
       Event.set 0 false, Event.set 1 false, Event.set 2 false,
       Event.set 3 false, Event.sleep 100,
       Event.set 0 true, Event.set 1 true, Event.set 2 true, Event.set 3 true,
       Event.sleep 0,
       Event.set 0 false, Event.set 1 false, Event.set 2 false,
       Event.set 3 false, Event.sleep 100] := by decide

/-- After `startup_blink`, every LED of the set is at the inactive level,
whatever levels it started from. -/
theorem startup_blink_level (s : Nat → Bool) (j : Nat) (hj : j < NUM_LEDS) :
    applyEvents startup_blink s j = false := by
  have hj4 : j < 4 := hj
  rw [startup_blink_eq]
  interval_cases j <;> simp [applyEvents, applyEvent]

/-- C6: `startup_blink` with STARTUP_FLASHES = 2 performs exactly two full
cycles: each LED is set to active twice and to inactive twice, each
inactive phase is followed by the 100 ms off hold (two such holds in
total), and at return every LED of the set is at the inactive level. -/
theorem c6_startup_blink_two_cycles :
    startup_blink = startup_blink_cycle ++ startup_blink_cycle ∧
    startup_blink.count (Event.sleep 100) = STARTUP_FLASHES ∧
    (∀ i, i < NUM_LEDS →
      startup_blink.count (Event.set i true) = STARTUP_FLASHES ∧
      startup_blink.count (Event.set i false) = STARTUP_FLASHES) ∧
    (∀ s i, i < NUM_LEDS → applyEvents startup_blink s i = false) := by
  refine ⟨by decide, by decide, ?_, fun s i hi => startup_blink_level s i hi⟩
  intro i hi
  have hi4 : i < 4 := hi
  interval_cases i <;> exact ⟨by decide, by decide⟩

/-- Witness for C6 at LED 0 and an all-active starting state. -/
theorem c6_startup_blink_two_cycles_witness :
    (0 : Nat) < NUM_LEDS ∧
    startup_blink.count (Event.set 0 true) = STARTUP_FLASHES ∧
    applyEvents startup_blink (fun _ => true) 0 = false :=
  ⟨by decide,
    (c6_startup_blink_two_cycles.2.2.1 0 (by decide)).1,
    c6_startup_blink_two_cycles.2.2.2 (fun _ => true) 0 (by decide)⟩

/-- C9: `startup_blink` establishes the all-inactive postcondition
unconditionally: it writes absolute levels rather than toggling, so for
every pre-call assignment of LED levels, including ones where some LEDs
start active, every LED of the set is at logic level 0 (inactive) on
return. -/
theorem c9_startup_blink_unconditional_off (s : Nat → Bool) (j : Nat)
    (hj : j < NUM_LEDS) :
    applyEvents startup_blink s j = false :=
  startup_blink_level s j hj

/-- Witness for C9 with LED 1 starting at the active level. -/
theorem c9_startup_blink_unconditional_off_witness :
    (1 : Nat) < NUM_LEDS ∧
    applyEvents startup_blink (fun j => j == 1) 1 = false :=
  ⟨by decide,
    c9_startup_blink_unconditional_off (fun j => j == 1) 1 (by decide)⟩

end Blinker

namespace Blinker

/-- Events that `init_leds` can emit: readiness checks, configure calls
and error logs. -/
def isInitEvent : Event → Bool
  | Event.isReadyCheck _ => true
  | Event.configure _ _ => true
  | Event.logErrNotReady _ => true
  | Event.logErrConfigure _ _ => true
  | _ => false

/-- Whether an event is a pin write, a toggle or a sleep, i.e. something
only `startup_blink` or `do_chase_lap` perform. -/
def isPulse : Event → Bool
  | Event.set _ _ => true
  | Event.toggle _ => true
  | Event.sleep _ => true
  | _ => false

/-- Whether an event is an informational log line. -/
def isLogInf : Event → Bool
  | Event.logInf _ => true
  | _ => false

theorem init_leds_go_events (hw : Hw) (l : List Nat) :
    ∀ e ∈ (init_leds_go hw l).2, isInitEvent e = true := by
  induction l with
  | nil => intro e he; cases he
  | cons i t ih =>
      intro e he
      by_cases hr : hw.ready i = false
      · simp [init_leds_go, hr] at he
        rcases he with h | h <;> subst h <;> rfl
      · by_cases hc : hw.cfgErr i ≠ 0
        · simp [init_leds_go, hr, hc] at he
          rcases he with h | h | h <;> subst h <;> rfl
        · simp [init_leds_go, hr, hc] at he
          rcases he with h | h | h
          · subst h; rfl
          · subst h; rfl
          · exact ih e h

theorem init_leds_countP_zero (hw : Hw) (p : Event → Bool)
    (hp : ∀ e, isInitEvent e = true → p e = false) :
    (init_leds hw).2.countP p = 0 := by
  rw [List.countP_eq_zero]
  intro a ha
  have h := init_leds_go_events hw (List.range NUM_LEDS) a ha
  simp [hp a h]

theorem isPulse_of_initEvent (e : Event) (he : isInitEvent e = true) :
    isPulse e = false := by
  cases e <;> simp_all [isInitEvent, isPulse]

theorem isLogInf_of_initEvent (e : Event) (he : isInitEvent e = true) :
    isLogInf e = false := by
  cases e <;> simp_all [isInitEvent, isLogInf]

theorem chase_laps_countP_isLogInf (n : Nat) :
    (chase_laps n).countP isLogInf = 0 := by
  induction n with
  | zero => rfl
  | succ m ih =>
      have h1 : chase_laps (m + 1) = do_chase_lap ++ chase_laps m := by
        rw [chase_laps, chase_laps, List.replicate_succ, List.flatten_cons]
      rw [h1, List.countP_append, ih]
      decide

/-- C8: if `init_leds` fails with code e, `main` reports e through the
printk fallback, returns exactly e, and performs no pin write, toggle or
sleep at all (neither `startup_blink` nor any `do_chase_lap` runs); if
`init_leds` succeeds, `main` never returns, its trace is the init trace,
then exactly one informational message reporting the LED count NUM_LEDS,
then the startup blink, then the chase laps. -/
theorem c8_main_control_flow :
    (∀ hw laps, (init_leds hw).1 ≠ 0 →
      (main hw laps).1 = some (init_leds hw).1 ∧
      (main hw laps).2 =
        (init_leds hw).2 ++ [Event.printk (init_leds hw).1] ∧
      (main hw laps).2.countP isPulse = 0) ∧
    (∀ hw laps, (init_leds hw).1 = 0 →
      (main hw laps).1 = none ∧
      (main hw laps).2 =
        (init_leds hw).2 ++ [Event.logInf NUM_LEDS]
          ++ startup_blink ++ chase_laps laps ∧
      (main hw laps).2.countP isLogInf = 1 ∧
      Event.logInf NUM_LEDS ∈ (main hw laps).2) := by
  constructor
  · intro hw laps hne
    have hm : main hw laps =
        (some (init_leds hw).1,
          (init_leds hw).2 ++ [Event.printk (init_leds hw).1]) := by
      simp [main, hne]
    rw [hm]
    refine ⟨rfl, rfl, ?_⟩
    rw [List.countP_append, init_leds_countP_zero hw isPulse isPulse_of_initEvent]
    rfl
  · intro hw laps hz
    have hm : main hw laps =
        (none, (init_leds hw).2 ++ [Event.logInf NUM_LEDS]
          ++ startup_blink ++ chase_laps laps) := by
      simp [main, hz]
    rw [hm]
    refine ⟨rfl, rfl, ?_, ?_⟩
    · rw [List.countP_append, List.countP_append, List.countP_append,
        init_leds_countP_zero hw isLogInf isLogInf_of_initEvent,
        chase_laps_countP_isLogInf]
      decide
    · simp

/-- Witness for C8: a failing run on hardware with no LED ready, and a
succeeding run on all-good hardware. -/
theorem c8_main_control_flow_witness :
    ((init_leds hwNR0).1 ≠ 0 ∧ (main hwNR0 0).1 = some (init_leds hwNR0).1) ∧
    ((init_leds hwGood).1 = 0 ∧ (main hwGood 1).1 = none) :=
  ⟨⟨by decide, (c8_main_control_flow.1 hwNR0 0 (by decide)).1⟩,
   ⟨by decide, (c8_main_control_flow.2 hwGood 1 (by decide)).1⟩⟩

end Blinker
